import Mathlib

/-!
# Verification of the StorEdge DaVinci miscompare analyzer

Shallow embedding of the reconciliation core of
`src/unit_status_analyzer.py` (class `UnitStatusAnalyzer`): record
normalization, status resolution, lock expectation, miscompare detection,
severity classification and summary aggregation, together with the
header (required-column) validation of the three loaders.

Dataframes are modelled as lists of rows; the pandas
`set_index(...)['col'].to_dict()` mapping build keeps the last row for a
duplicate key, modelled by `lastLookup`.
-/

namespace StorEdge

/-- A raw row of `units.csv`: columns `Unit` and `Status`. -/
structure RawUnitRow where
  unit : String
  status : String
deriving Repr, DecidableEq

/-- A raw row of `rentroll.csv`: columns `Unit` and `Days Past Due`.
`daysPastDue` holds the result of the numeric parse
(`pd.to_numeric(..., errors := coerce)`): `none` for blank/unparsable. -/
structure RawRentrollRow where
  unit : String
  daysPastDue : Option Int
deriving Repr, DecidableEq

/-- A raw row of the locks file: columns `Unit Number` and `Status`. -/
structure RawLockRow where
  unitNumber : String
  status : String
deriving Repr, DecidableEq

/-- Python `str.strip()`: remove leading and trailing whitespace. -/
def strip (s : String) : String :=
  ⟨((s.data.dropWhile Char.isWhitespace).reverse.dropWhile Char.isWhitespace).reverse⟩

/-- Python `s[:3].upper()`: the first 3 characters, upper-cased. -/
def statusCode (rawStatus : String) : String :=
  ⟨(rawStatus.data.take 3).map Char.toUpper⟩

/-- `load_units_file`: `Unit_Status` derived from the first 3 characters of
`Status`, upper-cased, via the mapping OCC/VAC, with `fillna('Unknown')`. -/
def unitStatusOf (rawStatus : String) : String :=
  let c := statusCode rawStatus
  if c = "OCC" then "Occupied"
  else if c = "VAC" then "Vacant"
  else "Unknown"

/-- `load_rentroll_file`: `Days_Past_Due_Clean = to_numeric(...).fillna(0)`. -/
def daysPastDueClean (d : Option Int) : Int :=
  d.getD 0

/-- `load_rentroll_file`: `Payment_Status` is Delinquent iff the cleaned
days-past-due value is positive. -/
def paymentStatusOf (days : Int) : String :=
  if days > 0 then "Delinquent" else "Current"

/-- pandas `set_index('Unit')['col'].to_dict()`: for duplicate keys the last
row wins. -/
def lastLookup (rows : List (String × String)) (key : String) : Option String :=
  (rows.reverse.find? (fun p => p.1 = key)).map Prod.snd

/-- The normalized `(Unit, Payment_Status)` pairs of the rentroll table. -/
def rentrollPairs (rentroll : List RawRentrollRow) : List (String × String) :=
  rentroll.map (fun r => (strip r.unit, paymentStatusOf (daysPastDueClean r.daysPastDue)))

/-- `determine_unit_status`: the `rentroll_mapping` dictionary. -/
def rentrollMapOf (rentroll : List RawRentrollRow) : String → Option String :=
  lastLookup (rentrollPairs rentroll)

/-- The normalized `(Unit, Lock_Status)` pairs of the locks table. -/
def lockPairs (locks : List RawLockRow) : List (String × String) :=
  locks.map (fun r => (strip r.unitNumber, strip r.status))

/-- `add_lock_status`: the `locks_mapping` dictionary. -/
def locksMapOf (locks : List RawLockRow) : String → Option String :=
  lastLookup (lockPairs locks)

/-- `determine_unit_status.get_final_status`. -/
def get_final_status (unit unitStatus : String) (rentrollMap : String → Option String) :
    String :=
  if unitStatus = "Vacant" then "Vacant"
  else if unitStatus = "Occupied" then
    match rentrollMap unit with
    | some paymentStatus => "Occupied-" ++ paymentStatus
    | none => "Vacant"
  else "Unknown"

/-- `add_lock_status`: `Actual_Lock_Status = Unit.map(locks_mapping).fillna('No Lock Assigned')`. -/
def actualLockStatusOf (unit : String) (locksMap : String → Option String) : String :=
  (locksMap unit).getD "No Lock Assigned"

/-- `add_lock_status.get_expected_lock_status`. -/
def get_expected_lock_status (finalStatus : String) : String :=
  if finalStatus = "Vacant" then "Assigned Vacant"
  else if finalStatus = "Occupied-Current" then "Tenant Using Lock"
  else if finalStatus = "Occupied-Delinquent" then "Assigned Overlock or Assigned Auction"
  else "Unknown"

/-- `detect_miscompares.is_miscompare`. -/
def is_miscompare (finalStatus actual : String) : Bool :=
  if finalStatus = "Occupied-Delinquent" then
    !(actual = "Assigned Overlock" || actual = "Assigned Auction")
  else if finalStatus = "Vacant" then
    actual != "Assigned Vacant"
  else if finalStatus = "Occupied-Current" then
    actual != "Tenant Using Lock"
  else
    false

/-- `detect_miscompares.get_miscompare_severity`. -/
def get_miscompare_severity (isMisc : Bool) (finalStatus actual : String) : String :=
  if !isMisc then "No Issue"
  else if finalStatus = "Vacant" &&
      (actual = "Tenant Using Lock" || actual = "Assigned Overlock") then
    "HIGH - Vacant unit with tenant lock"
  else if finalStatus = "Occupied-Current" &&
      (actual = "Assigned Vacant" || actual = "Assigned Overlock") then
    "HIGH - Current tenant without proper lock"
  else if finalStatus = "Occupied-Delinquent" && actual = "Assigned Vacant" then
    "HIGH - Delinquent unit without lock"
  else
    "MEDIUM - Lock status mismatch"

/-- A row of the final `Unit_Analysis` table (`master_df`): columns `Unit`,
`Unit_Status`, `Final_Status`, `Actual_Lock_Status`, `Expected_Lock_Status`,
`Is_Miscompare`, `Miscompare_Severity`. -/
structure UnitAnalysisRow where
  unit : String
  unitStatus : String
  finalStatus : String
  actualLockStatus : String
  expectedLockStatus : String
  isMiscompare : Bool
  severity : String
deriving Repr, DecidableEq

/-- One row of the pipeline `determine_unit_status` → `add_lock_status` →
`detect_miscompares`, for a normalized unit `(unit, unitStatus)` given the
two mappings. -/
def analyzeRow (rentrollMap locksMap : String → Option String)
    (unit unitStatus : String) : UnitAnalysisRow :=
  let fs := get_final_status unit unitStatus rentrollMap
  let actual := actualLockStatusOf unit locksMap
  let m := is_miscompare fs actual
  { unit := unit
    unitStatus := unitStatus
    finalStatus := fs
    actualLockStatus := actual
    expectedLockStatus := get_expected_lock_status fs
    isMiscompare := m
    severity := get_miscompare_severity m fs actual }

/-- `run_analysis` without the file I/O: load (normalize) the three tables,
then `determine_unit_status`, `add_lock_status`, `detect_miscompares`. -/
def run_analysis (units : List RawUnitRow) (rentroll : List RawRentrollRow)
    (locks : List RawLockRow) : List UnitAnalysisRow :=
  units.map (fun u =>
    analyzeRow (rentrollMapOf rentroll) (locksMapOf locks)
      (strip u.unit) (unitStatusOf u.status))

/-- `generate_summary_report`: `total_units = len(df)`. -/
def total_units (df : List UnitAnalysisRow) : Nat :=
  df.length

/-- `generate_summary_report`: `df['Is_Miscompare'].sum()`, the pandas sum of
the boolean column. -/
def miscompare_count (df : List UnitAnalysisRow) : Nat :=
  df.foldl (fun acc r => acc + (if r.isMiscompare then 1 else 0)) 0

/-- `generate_summary_report`:
`miscompare_rate = (df['Is_Miscompare'].sum() / len(df)) * 100`, as an exact
rational. -/
def miscompare_rate (df : List UnitAnalysisRow) : ℚ :=
  ((miscompare_count df : ℚ) / (total_units df : ℚ)) * 100

/-! ## Required-column validation of the three loaders -/

/-- `load_units_file`: `required_cols = ['Unit', 'Status']`;
`missing_cols = [col for col in required_cols if col not in df.columns]`. -/
def unitsMissingCols (columns : List String) : List String :=
  (["Unit", "Status"]).filter (fun c => !(columns.contains c))

/-- `load_units_file` column validation: raises naming the missing columns
when some required column is absent (exact name match). -/
def unitsHeaderCheck (columns : List String) : Except (List String) Unit :=
  if unitsMissingCols columns = [] then .ok () else .error (unitsMissingCols columns)

/-- `load_rentroll_file`: `unit_col_candidates`. -/
def unit_col_candidates : List String :=
  ["Unit", "UNIT", "\"Unit\"", "\"UNIT\""]

/-- `load_rentroll_file`: `days_col_candidates`. -/
def days_col_candidates : List String :=
  ["Days Past Due", "DAYS PAST DUE", "\"Days Past Due\"", "\"DAYS PAST DUE\""]

/-- `load_rentroll_file`: missing-column list — `'Unit'` unless some unit-column
candidate is present, then `'Days Past Due'` unless some days-column candidate
is present. -/
def rentrollMissingCols (columns : List String) : List String :=
  (if unit_col_candidates.any (fun c => columns.contains c) then [] else ["Unit"]) ++
  (if days_col_candidates.any (fun c => columns.contains c) then [] else ["Days Past Due"])

/-- `load_rentroll_file` column validation. -/
def rentrollHeaderCheck (columns : List String) : Except (List String) Unit :=
  if rentrollMissingCols columns = [] then .ok ()
  else .error (rentrollMissingCols columns)

/-- `load_locks_file`: `required_cols = ['Unit Number', 'Status']`, exact
name match. -/
def locksMissingCols (columns : List String) : List String :=
  (["Unit Number", "Status"]).filter (fun c => !(columns.contains c))

/-- `load_locks_file` column validation. -/
def locksHeaderCheck (columns : List String) : Except (List String) Unit :=
  if locksMissingCols columns = [] then .ok () else .error (locksMissingCols columns)

/-- Python `str.strip('"')`: remove leading and trailing double-quote
characters. -/
def stripQuoteChars (s : String) : String :=
  ⟨((s.data.dropWhile (fun c => c = '"')).reverse.dropWhile (fun c => c = '"')).reverse⟩

/-- Modelled from the spec (§6): the spec-side notion of column-name
equivalence, tolerant of casing, surrounding whitespace and quoting — two
header names are equivalent when they agree after trimming whitespace,
stripping surrounding double quotes, trimming again and lower-casing. Used
only to compare the source's validation against the spec's claim. -/
def specColNormalize (s : String) : String :=
  ⟨((strip (stripQuoteChars (strip s))).data.map Char.toLower)⟩

/-- Modelled from the spec (§6): spec-side column-name equivalence. -/
def specColEquiv (a b : String) : Bool :=
  specColNormalize a = specColNormalize b

/-! ## Helper lemmas -/

@[simp] theorem analyzeRow_unit (rm lm : String → Option String) (u s : String) :
    (analyzeRow rm lm u s).unit = u := rfl

@[simp] theorem analyzeRow_unitStatus (rm lm : String → Option String) (u s : String) :
    (analyzeRow rm lm u s).unitStatus = s := rfl

@[simp] theorem analyzeRow_finalStatus (rm lm : String → Option String) (u s : String) :
    (analyzeRow rm lm u s).finalStatus = get_final_status u s rm := rfl

@[simp] theorem analyzeRow_actualLockStatus (rm lm : String → Option String) (u s : String) :
    (analyzeRow rm lm u s).actualLockStatus = actualLockStatusOf u lm := rfl

@[simp] theorem analyzeRow_expectedLockStatus (rm lm : String → Option String) (u s : String) :
    (analyzeRow rm lm u s).expectedLockStatus =
      get_expected_lock_status (get_final_status u s rm) := rfl

@[simp] theorem analyzeRow_isMiscompare (rm lm : String → Option String) (u s : String) :
    (analyzeRow rm lm u s).isMiscompare =
      is_miscompare (get_final_status u s rm) (actualLockStatusOf u lm) := rfl

@[simp] theorem analyzeRow_severity (rm lm : String → Option String) (u s : String) :
    (analyzeRow rm lm u s).severity =
      get_miscompare_severity
        (is_miscompare (get_final_status u s rm) (actualLockStatusOf u lm))
        (get_final_status u s rm) (actualLockStatusOf u lm) := rfl

/-- Every output row of `run_analysis` is `analyzeRow` applied to the stripped
unit id and derived occupancy of some input units row. -/
theorem mem_run_analysis {units : List RawUnitRow} {rent : List RawRentrollRow}
    {locks : List RawLockRow} {row : UnitAnalysisRow}
    (h : row ∈ run_analysis units rent locks) :
    ∃ u ∈ units,
      row = analyzeRow (rentrollMapOf rent) (locksMapOf locks)
        (strip u.unit) (unitStatusOf u.status) := by
  simp only [run_analysis, List.mem_map] at h
  obtain ⟨u, hu, he⟩ := h
  exact ⟨u, hu, he.symm⟩

/-- The derived occupancy takes one of exactly three values. -/
theorem unitStatusOf_cases (s : String) :
    unitStatusOf s = "Occupied" ∨ unitStatusOf s = "Vacant" ∨
      unitStatusOf s = "Unknown" := by
  unfold unitStatusOf
  dsimp only
  split_ifs <;> simp

/-- `Occupied-<p>` is never the string `Unknown` (length 9 + |p| vs 7). -/
theorem occupiedDash_ne_unknown (p : String) : ("Occupied-" ++ p) ≠ "Unknown" := by
  intro h
  have hl := congrArg String.length h
  rw [String.length_append] at hl
  have h9 : ("Occupied-" : String).length = 9 := rfl
  have h7 : ("Unknown" : String).length = 7 := rfl
  rw [h9, h7] at hl
  omega

/-- `is_miscompare` on a delinquent unit: clear iff overlock or auction. -/
theorem is_miscompare_delinquent_iff (a : String) :
    is_miscompare "Occupied-Delinquent" a = false ↔
      (a = "Assigned Overlock" ∨ a = "Assigned Auction") := by
  unfold is_miscompare
  rw [if_pos rfl]
  by_cases h1 : a = "Assigned Overlock" <;> by_cases h2 : a = "Assigned Auction" <;>
    simp [h1, h2]

/-- `is_miscompare` never fires on final status `Unknown`. -/
theorem is_miscompare_unknown (a : String) : is_miscompare "Unknown" a = false := by
  unfold is_miscompare
  rw [if_neg (by decide), if_neg (by decide), if_neg (by decide)]

/-- The derived occupancy is `Unknown` exactly when the 3-character prefix of
the raw status matches neither `OCC` nor `VAC`. -/
theorem unitStatusOf_unknown_iff (s : String) :
    unitStatusOf s = "Unknown" ↔
      (statusCode s ≠ "OCC" ∧ statusCode s ≠ "VAC") := by
  unfold unitStatusOf
  dsimp only
  split_ifs with h1 h2 <;> simp_all

/-- `get_final_status` on a derived occupancy yields `Unknown` iff the
occupancy itself is `Unknown`. -/
theorem get_final_status_unknown_iff (u s : String) (rm : String → Option String) :
    get_final_status u (unitStatusOf s) rm = "Unknown" ↔
      unitStatusOf s = "Unknown" := by
  rcases unitStatusOf_cases s with h | h | h <;> rw [h] <;> unfold get_final_status
  · rw [if_neg (by decide), if_pos rfl]
    cases hru : rm u with
    | some p =>
        exact ⟨fun hx => absurd hx (occupiedDash_ne_unknown p),
               fun hx => absurd hx (by decide)⟩
    | none => decide
  · rw [if_pos rfl]
  · rw [if_neg (by decide), if_neg (by decide)]

/-- On a flagged row, `get_miscompare_severity` is the first-matching-rule
cascade over `(final_status, actual_lock_status)`. -/
theorem get_miscompare_severity_true_eq (fs a : String) :
    get_miscompare_severity true fs a =
      if fs = "Vacant" ∧ (a = "Tenant Using Lock" ∨ a = "Assigned Overlock") then
        "HIGH - Vacant unit with tenant lock"
      else if fs = "Occupied-Current" ∧
          (a = "Assigned Vacant" ∨ a = "Assigned Overlock") then
        "HIGH - Current tenant without proper lock"
      else if fs = "Occupied-Delinquent" ∧ a = "Assigned Vacant" then
        "HIGH - Delinquent unit without lock"
      else "MEDIUM - Lock status mismatch" := by
  unfold get_miscompare_severity
  simp only [Bool.not_true, Bool.false_eq_true, if_false, Bool.and_eq_true,
    Bool.or_eq_true, decide_eq_true_eq]

/-- A flagged row whose actual lock status lies outside the recognized closed
set is always classified MEDIUM. -/
theorem outside_set_medium (fs a : String)
    (hfs : fs = "Vacant" ∨ fs = "Occupied-Current" ∨ fs = "Occupied-Delinquent")
    (h1 : a ≠ "Assigned Vacant") (h2 : a ≠ "Tenant Using Lock")
    (h3 : a ≠ "Assigned Auction") (h4 : a ≠ "Assigned Overlock") :
    is_miscompare fs a = true ∧
      get_miscompare_severity (is_miscompare fs a) fs a =
        "MEDIUM - Lock status mismatch" := by
  have hm : is_miscompare fs a = true := by
    rcases hfs with h | h | h <;> subst h <;> unfold is_miscompare
    · rw [if_neg (by decide), if_pos rfl]
      simp [h1]
    · rw [if_neg (by decide), if_neg (by decide), if_pos rfl]
      simp [h2]
    · rw [if_pos rfl]
      simp [h3, h4]
  refine ⟨hm, ?_⟩
  rw [hm, get_miscompare_severity_true_eq,
      if_neg (fun hc => hc.2.elim h2 h4),
      if_neg (fun hc => hc.2.elim h1 h4),
      if_neg (fun hc => h1 hc.2)]

/-- The pandas boolean-column sum, as a fold, counts the flagged rows. -/
theorem foldl_count_aux (df : List UnitAnalysisRow) (n : Nat) :
    df.foldl (fun acc r => acc + (if r.isMiscompare then 1 else 0)) n =
      n + (df.filter (fun r => r.isMiscompare)).length := by
  induction df generalizing n with
  | nil => simp
  | cons a t ih =>
      rw [List.foldl_cons, ih, List.filter_cons]
      cases h : a.isMiscompare <;> (simp [h]; try omega)

/-! ## Claims -/

/-- C1 counterexample: with the units input listing unit `U1` twice, the final
table holds two rows whose unit id is `U1`, although the input has a single
distinct unit id — so the table does not have exactly one row per distinct
unit id. -/
theorem claim1_counterexample :
    ((run_analysis [⟨"U1", "VAC"⟩, ⟨"U1", "VAC"⟩] [] []).filter
        (fun row => row.unit = "U1")).length = 2 ∧
    (([⟨"U1", "VAC"⟩, ⟨"U1", "VAC"⟩] : List RawUnitRow).map
        (fun u => strip u.unit)).dedup = ["U1"] := by
  constructor
  · decide
  · decide

/-- C1 (amended): the final UnitAnalysis table has exactly one row per
units-input row, in input order, keyed by the stripped unit id of that row; a
duplicate unit id therefore yields one row per occurrence, and one row per
distinct unit id holds exactly when the stripped input unit ids are distinct. -/
theorem claim1_amended (units : List RawUnitRow) (rent : List RawRentrollRow)
    (locks : List RawLockRow) :
    (run_analysis units rent locks).map (fun row => row.unit) =
      units.map (fun u => strip u.unit) ∧
    (run_analysis units rent locks).length = units.length := by
  constructor
  · unfold run_analysis
    rw [List.map_map]
    rfl
  · unfold run_analysis
    rw [List.length_map]

/-- C2: in any analysis output, a row whose final status is
`Occupied-Delinquent` is not a miscompare iff its actual lock status is
`Assigned Overlock` or `Assigned Auction`. -/
theorem claim2_delinquent_miscompare_iff (units : List RawUnitRow)
    (rent : List RawRentrollRow) (locks : List RawLockRow) (row : UnitAnalysisRow)
    (hrow : row ∈ run_analysis units rent locks)
    (hfs : row.finalStatus = "Occupied-Delinquent") :
    row.isMiscompare = false ↔
      (row.actualLockStatus = "Assigned Overlock" ∨
       row.actualLockStatus = "Assigned Auction") := by
  obtain ⟨u, -, rfl⟩ := mem_run_analysis hrow
  simp only [analyzeRow_finalStatus] at hfs
  simp only [analyzeRow_isMiscompare, analyzeRow_actualLockStatus, hfs]
  exact is_miscompare_delinquent_iff _

/-- C2 witness: a delinquent unit carrying an overlock, concretely. -/
theorem claim2_witness :
    (analyzeRow (rentrollMapOf [⟨"U1", some 5⟩])
        (locksMapOf [⟨"U1", "Assigned Overlock"⟩]) "U1" "Occupied").isMiscompare =
        false ↔
      ((analyzeRow (rentrollMapOf [⟨"U1", some 5⟩])
          (locksMapOf [⟨"U1", "Assigned Overlock"⟩]) "U1" "Occupied").actualLockStatus =
          "Assigned Overlock" ∨
       (analyzeRow (rentrollMapOf [⟨"U1", some 5⟩])
          (locksMapOf [⟨"U1", "Assigned Overlock"⟩]) "U1" "Occupied").actualLockStatus =
          "Assigned Auction") :=
  claim2_delinquent_miscompare_iff [⟨"U1", "OCC"⟩] [⟨"U1", some 5⟩]
    [⟨"U1", "Assigned Overlock"⟩] _ (by decide) (by decide)

/-- C6: a row whose final status is `Unknown` is never flagged as a
miscompare. -/
theorem claim6_unknown_no_miscompare (units : List RawUnitRow)
    (rent : List RawRentrollRow) (locks : List RawLockRow) (row : UnitAnalysisRow)
    (hrow : row ∈ run_analysis units rent locks)
    (hfs : row.finalStatus = "Unknown") :
    row.isMiscompare = false := by
  obtain ⟨u, -, rfl⟩ := mem_run_analysis hrow
  simp only [analyzeRow_finalStatus] at hfs
  simp only [analyzeRow_isMiscompare, hfs]
  exact is_miscompare_unknown _

/-- C6 witness: a unit with an unrecognized status prefix and a tenant lock is
not flagged. -/
theorem claim6_witness :
    (analyzeRow (rentrollMapOf []) (locksMapOf [⟨"U9", "Tenant Using Lock"⟩])
        "U9" "Unknown").isMiscompare = false :=
  claim6_unknown_no_miscompare [⟨"U9", "???"⟩] [] [⟨"U9", "Tenant Using Lock"⟩]
    _ (by decide) (by decide)

/-- C3: a flagged row's severity follows the first-matching-rule cascade:
Vacant with a tenant/overlock lock is HIGH (vacant unit with tenant lock),
Occupied-Current with a vacant/overlock lock is HIGH (current tenant without
proper lock), Occupied-Delinquent with a vacant lock is HIGH (delinquent unit
without lock), and every other miscompare is MEDIUM. -/
theorem claim3_severity_first_match (units : List RawUnitRow)
    (rent : List RawRentrollRow) (locks : List RawLockRow) (row : UnitAnalysisRow)
    (hrow : row ∈ run_analysis units rent locks)
    (hm : row.isMiscompare = true) :
    row.severity =
      if row.finalStatus = "Vacant" ∧
          (row.actualLockStatus = "Tenant Using Lock" ∨
           row.actualLockStatus = "Assigned Overlock") then
        "HIGH - Vacant unit with tenant lock"
      else if row.finalStatus = "Occupied-Current" ∧
          (row.actualLockStatus = "Assigned Vacant" ∨
           row.actualLockStatus = "Assigned Overlock") then
        "HIGH - Current tenant without proper lock"
      else if row.finalStatus = "Occupied-Delinquent" ∧
          row.actualLockStatus = "Assigned Vacant" then
        "HIGH - Delinquent unit without lock"
      else "MEDIUM - Lock status mismatch" := by
  obtain ⟨u, -, rfl⟩ := mem_run_analysis hrow
  simp only [analyzeRow_isMiscompare] at hm
  simp only [analyzeRow_severity, analyzeRow_finalStatus,
    analyzeRow_actualLockStatus, hm]
  exact get_miscompare_severity_true_eq _ _

/-- C3 witness: an occupied-current unit with a vacant lock gets the HIGH
current-tenant severity via the cascade. -/
theorem claim3_witness :
    (analyzeRow (rentrollMapOf [⟨"U2", some 0⟩])
        (locksMapOf [⟨"U2", "Assigned Vacant"⟩]) "U2" "Occupied").severity =
      if (analyzeRow (rentrollMapOf [⟨"U2", some 0⟩])
            (locksMapOf [⟨"U2", "Assigned Vacant"⟩]) "U2" "Occupied").finalStatus =
            "Vacant" ∧
          ((analyzeRow (rentrollMapOf [⟨"U2", some 0⟩])
              (locksMapOf [⟨"U2", "Assigned Vacant"⟩]) "U2" "Occupied").actualLockStatus =
              "Tenant Using Lock" ∨
           (analyzeRow (rentrollMapOf [⟨"U2", some 0⟩])
              (locksMapOf [⟨"U2", "Assigned Vacant"⟩]) "U2" "Occupied").actualLockStatus =
              "Assigned Overlock") then
        "HIGH - Vacant unit with tenant lock"
      else if (analyzeRow (rentrollMapOf [⟨"U2", some 0⟩])
            (locksMapOf [⟨"U2", "Assigned Vacant"⟩]) "U2" "Occupied").finalStatus =
            "Occupied-Current" ∧
          ((analyzeRow (rentrollMapOf [⟨"U2", some 0⟩])
              (locksMapOf [⟨"U2", "Assigned Vacant"⟩]) "U2" "Occupied").actualLockStatus =
              "Assigned Vacant" ∨
           (analyzeRow (rentrollMapOf [⟨"U2", some 0⟩])
              (locksMapOf [⟨"U2", "Assigned Vacant"⟩]) "U2" "Occupied").actualLockStatus =
              "Assigned Overlock") then
        "HIGH - Current tenant without proper lock"
      else if (analyzeRow (rentrollMapOf [⟨"U2", some 0⟩])
            (locksMapOf [⟨"U2", "Assigned Vacant"⟩]) "U2" "Occupied").finalStatus =
            "Occupied-Delinquent" ∧
          (analyzeRow (rentrollMapOf [⟨"U2", some 0⟩])
            (locksMapOf [⟨"U2", "Assigned Vacant"⟩]) "U2" "Occupied").actualLockStatus =
            "Assigned Vacant" then
        "HIGH - Delinquent unit without lock"
      else "MEDIUM - Lock status mismatch" :=
  claim3_severity_first_match [⟨"U2", "Occupied - Tenant"⟩] [⟨"U2", some 0⟩]
    [⟨"U2", "Assigned Vacant"⟩] _ (by decide) (by decide)

/-- C4 counterexample: given the header row `UNIT, Status`, the units loader
fails and reports `Unit` missing, although the present header `UNIT` is
equivalent to `Unit` under the spec's casing/whitespace/quoting tolerance —
so identifying-column matching is not tolerant for the units input. -/
theorem claim4_counterexample :
    unitsHeaderCheck ["UNIT", "Status"] = .error ["Unit"] ∧
    specColEquiv "UNIT" "Unit" = true := by
  constructor
  · rfl
  · rfl

/-- C4 (amended): only the rentroll loader matches its identifying columns
against a fixed candidate list (tolerating exactly full upper-casing and
surrounding double quotes); the units loader requires the exact names `Unit`
and `Status`, and the locks loader the exact names `Unit Number` and `Status`.
Each loader succeeds iff its required (exact or candidate) columns are
present, and otherwise fails with an error naming the missing column(s). -/
theorem claim4_amended (cu cr cl : List String) :
    (unitsHeaderCheck cu = .ok () ↔ ("Unit" ∈ cu ∧ "Status" ∈ cu)) ∧
    (rentrollHeaderCheck cr = .ok () ↔
      ((∃ c ∈ unit_col_candidates, c ∈ cr) ∧ ∃ c ∈ days_col_candidates, c ∈ cr)) ∧
    (locksHeaderCheck cl = .ok () ↔ ("Unit Number" ∈ cl ∧ "Status" ∈ cl)) ∧
    (unitsHeaderCheck cu = .ok () ∨
      unitsHeaderCheck cu = .error (unitsMissingCols cu)) ∧
    (rentrollHeaderCheck cr = .ok () ∨
      rentrollHeaderCheck cr = .error (rentrollMissingCols cr)) ∧
    (locksHeaderCheck cl = .ok () ∨
      locksHeaderCheck cl = .error (locksMissingCols cl)) := by
  have hu : unitsMissingCols cu = [] ↔ ("Unit" ∈ cu ∧ "Status" ∈ cu) := by
    unfold unitsMissingCols
    simp [List.filter_eq_nil_iff]
  have hr : rentrollMissingCols cr = [] ↔
      ((∃ c ∈ unit_col_candidates, c ∈ cr) ∧ ∃ c ∈ days_col_candidates, c ∈ cr) := by
    unfold rentrollMissingCols
    simp [List.append_eq_nil]
  have hl : locksMissingCols cl = [] ↔ ("Unit Number" ∈ cl ∧ "Status" ∈ cl) := by
    unfold locksMissingCols
    simp [List.filter_eq_nil_iff]
  refine ⟨?_, ?_, ?_, ?_, ?_, ?_⟩
  · unfold unitsHeaderCheck
    split_ifs with h <;> simp [h, ← hu]
  · unfold rentrollHeaderCheck
    split_ifs with h <;> simp [h, ← hr]
  · unfold locksHeaderCheck
    split_ifs with h <;> simp [h, ← hl]
  · unfold unitsHeaderCheck
    split_ifs with h <;> simp
  · unfold rentrollHeaderCheck
    split_ifs with h <;> simp
  · unfold locksHeaderCheck
    split_ifs with h <;> simp

/-- C5: a row whose derived occupancy is `Occupied` but whose unit id is
absent from the rentroll mapping gets final status `Vacant`, a `Vacant`
expected lock status, and is compared against `Vacant`'s expectation: it is a
miscompare exactly when its actual lock status differs from
`Assigned Vacant`. -/
theorem claim5_occupied_missing_rentroll (units : List RawUnitRow)
    (rent : List RawRentrollRow) (locks : List RawLockRow) (row : UnitAnalysisRow)
    (hrow : row ∈ run_analysis units rent locks)
    (hocc : row.unitStatus = "Occupied")
    (habs : rentrollMapOf rent row.unit = none) :
    row.finalStatus = "Vacant" ∧
    row.expectedLockStatus = "Assigned Vacant" ∧
    (row.isMiscompare = true ↔ ¬ row.actualLockStatus = "Assigned Vacant") := by
  obtain ⟨u, -, rfl⟩ := mem_run_analysis hrow
  simp only [analyzeRow_unitStatus] at hocc
  simp only [analyzeRow_unit] at habs
  have hfs : get_final_status (strip u.unit) (unitStatusOf u.status)
      (rentrollMapOf rent) = "Vacant" := by
    rw [hocc]
    unfold get_final_status
    rw [if_neg (by decide), if_pos rfl, habs]
  refine ⟨?_, ?_, ?_⟩
  · simp only [analyzeRow_finalStatus]
    exact hfs
  · simp only [analyzeRow_expectedLockStatus, hfs]
    unfold get_expected_lock_status
    rw [if_pos rfl]
  · simp only [analyzeRow_isMiscompare, analyzeRow_actualLockStatus, hfs]
    unfold is_miscompare
    rw [if_neg (by decide), if_pos rfl]
    simp

/-- C5 witness: an occupied unit with no rentroll row and no lock assignment
falls back to Vacant and is flagged against Vacant's expectation. -/
theorem claim5_witness :
    (analyzeRow (rentrollMapOf []) (locksMapOf []) "U5" "Occupied").finalStatus =
        "Vacant" ∧
    (analyzeRow (rentrollMapOf []) (locksMapOf []) "U5" "Occupied").expectedLockStatus =
        "Assigned Vacant" ∧
    ((analyzeRow (rentrollMapOf []) (locksMapOf []) "U5" "Occupied").isMiscompare =
        true ↔
      ¬ (analyzeRow (rentrollMapOf []) (locksMapOf [])
          "U5" "Occupied").actualLockStatus = "Assigned Vacant") :=
  claim5_occupied_missing_rentroll [⟨"U5", "Occupied - Tenant"⟩] [] [] _
    (by decide) (by decide) (by decide)

/-- C7: a row's final status is `Unknown` iff its derived occupancy is
`Unknown`, and the derived occupancy of a row is `Unknown` iff it came from a
units row whose 3-character status prefix matched neither `OCC` nor `VAC`. -/
theorem claim7_unknown_iff (units : List RawUnitRow) (rent : List RawRentrollRow)
    (locks : List RawLockRow) (row : UnitAnalysisRow)
    (hrow : row ∈ run_analysis units rent locks) :
    (row.finalStatus = "Unknown" ↔ row.unitStatus = "Unknown") ∧
    (row.unitStatus = "Unknown" ↔
      ∃ u ∈ units, strip u.unit = row.unit ∧
        unitStatusOf u.status = row.unitStatus ∧
        statusCode u.status ≠ "OCC" ∧ statusCode u.status ≠ "VAC") := by
  obtain ⟨u, hu, rfl⟩ := mem_run_analysis hrow
  constructor
  · simp only [analyzeRow_finalStatus, analyzeRow_unitStatus]
    exact get_final_status_unknown_iff (strip u.unit) u.status (rentrollMapOf rent)
  · simp only [analyzeRow_unitStatus, analyzeRow_unit]
    constructor
    · intro h
      obtain ⟨hc1, hc2⟩ := (unitStatusOf_unknown_iff u.status).mp h
      exact ⟨u, hu, rfl, rfl, hc1, hc2⟩
    · rintro ⟨v, -, -, hvs, hv1, hv2⟩
      rw [← hvs]
      exact (unitStatusOf_unknown_iff v.status).mpr ⟨hv1, hv2⟩

/-- C7 witness: a unit with status `???` yields an Unknown row. -/
theorem claim7_witness :
    ((analyzeRow (rentrollMapOf []) (locksMapOf []) "U9" "Unknown").finalStatus =
        "Unknown" ↔
      (analyzeRow (rentrollMapOf []) (locksMapOf []) "U9" "Unknown").unitStatus =
        "Unknown") ∧
    ((analyzeRow (rentrollMapOf []) (locksMapOf []) "U9" "Unknown").unitStatus =
        "Unknown" ↔
      ∃ u ∈ ([⟨"U9", "???"⟩] : List RawUnitRow),
        strip u.unit =
          (analyzeRow (rentrollMapOf []) (locksMapOf []) "U9" "Unknown").unit ∧
        unitStatusOf u.status =
          (analyzeRow (rentrollMapOf []) (locksMapOf []) "U9" "Unknown").unitStatus ∧
        statusCode u.status ≠ "OCC" ∧ statusCode u.status ≠ "VAC") :=
  claim7_unknown_iff [⟨"U9", "???"⟩] [] [] _ (by decide)

/-- C8: for a non-empty analysis table, the summary's miscompare count is the
number of flagged rows, and the miscompare rate is that count divided by the
total row count, times 100. -/
theorem claim8_summary_rate (df : List UnitAnalysisRow) (_h : df ≠ []) :
    miscompare_count df = (df.filter (fun r => r.isMiscompare)).length ∧
    miscompare_rate df =
      (((df.filter (fun r => r.isMiscompare)).length : ℚ) / (df.length : ℚ)) * 100 := by
  have hc : miscompare_count df = (df.filter (fun r => r.isMiscompare)).length := by
    unfold miscompare_count
    simpa using foldl_count_aux df 0
  refine ⟨hc, ?_⟩
  unfold miscompare_rate total_units
  rw [hc]

/-- C8 witness: two vacant units, one correctly locked and one with no lock,
give count 1 and rate 50. -/
theorem claim8_witness :
    miscompare_count
        (run_analysis [⟨"U1", "VAC"⟩, ⟨"U2", "VAC"⟩] [] [⟨"U1", "Assigned Vacant"⟩]) =
      ((run_analysis [⟨"U1", "VAC"⟩, ⟨"U2", "VAC"⟩] [] [⟨"U1", "Assigned Vacant"⟩]).filter
          (fun r => r.isMiscompare)).length ∧
    miscompare_rate
        (run_analysis [⟨"U1", "VAC"⟩, ⟨"U2", "VAC"⟩] [] [⟨"U1", "Assigned Vacant"⟩]) =
      ((((run_analysis [⟨"U1", "VAC"⟩, ⟨"U2", "VAC"⟩] [] [⟨"U1", "Assigned Vacant"⟩]).filter
            (fun r => r.isMiscompare)).length : ℚ) /
        ((run_analysis [⟨"U1", "VAC"⟩, ⟨"U2", "VAC"⟩] [] [⟨"U1", "Assigned Vacant"⟩]).length : ℚ)) *
        100 :=
  claim8_summary_rate
    (run_analysis [⟨"U1", "VAC"⟩, ⟨"U2", "VAC"⟩] [] [⟨"U1", "Assigned Vacant"⟩])
    (by decide)

/-- C9: the pipeline is deterministic — two runs on equal immutable inputs
produce equal UnitAnalysis tables. -/
theorem claim9_deterministic (u1 u2 : List RawUnitRow) (r1 r2 : List RawRentrollRow)
    (l1 l2 : List RawLockRow) (hu : u1 = u2) (hr : r1 = r2) (hl : l1 = l2) :
    run_analysis u1 r1 l1 = run_analysis u2 r2 l2 := by
  rw [hu, hr, hl]

/-- C9 witness: two identical concrete runs coincide. -/
theorem claim9_witness :
    run_analysis [⟨"U1", "OCC"⟩] [⟨"U1", some 0⟩] [⟨"U1", "Tenant Using Lock"⟩] =
      run_analysis [⟨"U1", "OCC"⟩] [⟨"U1", some 0⟩] [⟨"U1", "Tenant Using Lock"⟩] :=
  claim9_deterministic _ _ _ _ _ _ rfl rfl rfl

/-- C10: a row with one of the three compared final statuses whose actual
lock status lies outside the closed recognized set (including the
`No Lock Assigned` default and unrecognized verbatim strings) is flagged and
always classified MEDIUM, never HIGH. -/
theorem claim10_unrecognized_medium (units : List RawUnitRow)
    (rent : List RawRentrollRow) (locks : List RawLockRow) (row : UnitAnalysisRow)
    (hrow : row ∈ run_analysis units rent locks)
    (hfs : row.finalStatus = "Vacant" ∨ row.finalStatus = "Occupied-Current" ∨
           row.finalStatus = "Occupied-Delinquent")
    (hout : row.actualLockStatus ∉
      (["Assigned Vacant", "Tenant Using Lock", "Assigned Auction",
        "Assigned Overlock"] : List String)) :
    row.isMiscompare = true ∧ row.severity = "MEDIUM - Lock status mismatch" := by
  obtain ⟨u, -, rfl⟩ := mem_run_analysis hrow
  simp only [analyzeRow_finalStatus, analyzeRow_actualLockStatus,
    analyzeRow_isMiscompare, analyzeRow_severity] at hfs hout ⊢
  simp only [List.mem_cons, List.not_mem_nil, or_false, not_or] at hout
  obtain ⟨h1, h2, h3, h4⟩ := hout
  exact outside_set_medium _ _ hfs h1 h2 h3 h4

/-- C10 witness: a delinquent unit with no lock assignment is flagged MEDIUM,
not HIGH. -/
theorem claim10_witness :
    (analyzeRow (rentrollMapOf [⟨"U1", some 5⟩]) (locksMapOf [])
        "U1" "Occupied").isMiscompare = true ∧
    (analyzeRow (rentrollMapOf [⟨"U1", some 5⟩]) (locksMapOf [])
        "U1" "Occupied").severity = "MEDIUM - Lock status mismatch" :=
  claim10_unrecognized_medium [⟨"U1", "OCC"⟩] [⟨"U1", some 5⟩] [] _
    (by decide) (by decide) (by decide)

end StorEdge
